import Mathlib

/-!
Verification of `utils/aarch64_32_bit_el1_supported.c` from ClangBuiltLinux/boot-utils.

The program is a single linear sequence of OS calls:
  fd = open("/dev/kvm", O_RDWR);           -- fatal on failure, exit -errno
  ret = ioctl(fd, KVM_CHECK_EXTENSION, KVM_CAP_ARM_EL1_32BIT);
                                           -- on failure: perror, ret = 0
  close(fd);                               -- result discarded
  return !ret;

We embed it shallowly: the nondeterministic OS-call results are an input
record `OS`, and the program is a pure function producing an exit status
(the `int` returned from `main`) together with a trace of the observable
events (system calls issued and diagnostics written to stderr).
-/

namespace Aarch64El1

/-- `O_RDWR` from fcntl.h. -/
def O_RDWR : Nat := 2

/-- `KVM_CHECK_EXTENSION` ioctl request number, `_IO(KVMIO, 0x03)` with
type byte `0xAE`: encoded value `0xAE03`. -/
def KVM_CHECK_EXTENSION : Nat := 0xAE03

/-- `KVM_CAP_ARM_EL1_32BIT` capability identifier from linux/kvm.h. -/
def KVM_CAP_ARM_EL1_32BIT : Nat := 93

/-- The results the operating system hands back for each call the program
may make, together with the `errno` value in effect after each fallible
call.  This is the sole source of nondeterminism in one execution. -/
structure OS where
  /-- result of `open("/dev/kvm", O_RDWR)`: a file descriptor, or negative on failure -/
  openResult : Int
  /-- `errno` after the `open` call (relevant when it failed) -/
  openErrno : Int
  /-- result of `ioctl(fd, KVM_CHECK_EXTENSION, KVM_CAP_ARM_EL1_32BIT)` -/
  ioctlResult : Int
  /-- `errno` after the `ioctl` call (relevant when it failed) -/
  ioctlErrno : Int
  /-- result of `close(fd)` (the program discards it) -/
  closeResult : Int
  deriving Repr, DecidableEq

/-- POSIX well-formedness of an execution environment: when `open` fails
it sets `errno` to a positive value. -/
def OS.valid (os : OS) : Prop :=
  os.openResult < 0 → 0 < os.openErrno

instance (os : OS) : Decidable os.valid := by
  unfold OS.valid; infer_instance

/-- An observable event of one execution: a system call with its
arguments and result, or a diagnostic written via `perror` (which writes
its message plus the description of `errno` to standard error), or a
write to standard output (the program never performs one, but the event
exists so that this absence is expressible). -/
inductive Event where
  | openCall (path : String) (flags : Nat) (result : Int)
  | ioctlCall (fd : Int) (request : Nat) (arg : Nat) (result : Int)
  | closeCall (fd : Int) (result : Int)
  | perrorCall (msg : String) (errno : Int)
  | stdoutWrite (s : String)
  deriving Repr, DecidableEq

/-- Is this event the `ioctl` system call? -/
def Event.isIoctlCall : Event → Bool
  | .ioctlCall _ _ _ _ => true
  | _ => false

/-- Is this event the `close` system call? -/
def Event.isCloseCall : Event → Bool
  | .closeCall _ _ => true
  | _ => false

/-- Is this event a write to standard output? -/
def Event.isStdoutWrite : Event → Bool
  | .stdoutWrite _ => true
  | _ => false

/-- Outcome of one execution: the value `main` returns (the process exit
status) and the ordered trace of observable events. -/
structure ExecResult where
  exitStatus : Int
  trace : List Event
  deriving Repr, DecidableEq

/-- C logical negation `!x`: `1` when `x = 0`, else `0`. -/
def cNot (x : Int) : Int := if x = 0 then 1 else 0

/-- The body of `main` in `aarch64_32_bit_el1_supported.c`, line for line:
open `/dev/kvm`; on failure perror and return `-errno`; otherwise issue
`KVM_CHECK_EXTENSION` for `KVM_CAP_ARM_EL1_32BIT`; on a negative result
perror and set `ret = 0`; close the descriptor; return `!ret`. -/
def main (os : OS) : ExecResult :=
  let fd := os.openResult
  if fd < 0 then
    { exitStatus := -os.openErrno
      trace := [Event.openCall "/dev/kvm" O_RDWR fd,
                Event.perrorCall "Failed to open /dev/kvm" os.openErrno] }
  else
    let ret := os.ioctlResult
    if ret < 0 then
      { exitStatus := cNot 0
        trace := [Event.openCall "/dev/kvm" O_RDWR fd,
                  Event.ioctlCall fd KVM_CHECK_EXTENSION KVM_CAP_ARM_EL1_32BIT ret,
                  Event.perrorCall "Error checking /dev/kvm for 32-bit EL1 support" os.ioctlErrno,
                  Event.closeCall fd os.closeResult] }
    else
      { exitStatus := cNot ret
        trace := [Event.openCall "/dev/kvm" O_RDWR fd,
                  Event.ioctlCall fd KVM_CHECK_EXTENSION KVM_CAP_ARM_EL1_32BIT ret,
                  Event.closeCall fd os.closeResult] }

/-- The source `main` takes no parameters (`int main(void)`): an
invocation with an argument vector and an environment behaves as `main`,
both ignored. -/
def mainWithArgs (_argv : List String) (_env : List (String × String))
    (os : OS) : ExecResult :=
  main os

/-- The diagnostic messages written to standard error, in order. -/
def stderrMsgs (r : ExecResult) : List String :=
  r.trace.filterMap fun e =>
    match e with
    | .perrorCall m _ => some m
    | _ => none

end Aarch64El1

namespace Aarch64El1

/-- Execution where `open` fails with `EACCES` (13). -/
def osOpenFail : OS := ⟨-1, 13, 0, 0, 0⟩

/-- Execution where the capability is reported supported (`ioctl` returns 1). -/
def osSupported : OS := ⟨3, 0, 1, 0, 0⟩

/-- Execution where the capability is reported unsupported (`ioctl` returns 0). -/
def osUnsupported : OS := ⟨3, 0, 0, 0, 0⟩

/-- Execution where the `ioctl` itself fails with `ENOTTY` (25). -/
def osQueryFail : OS := ⟨3, 0, -1, 25, 0⟩

/-- Execution where the `ioctl` returns 2, a value outside `{0, 1}`. -/
def osTwo : OS := ⟨3, 0, 2, 0, 0⟩

/-- C1: when the open succeeds and the capability query returns `r ∈ {0, 1}`,
the exit status is the logical negation of `r`: 0 when `r = 1`, 1 when `r = 0`. -/
theorem exit_negates_capability (os : OS) (hfd : 0 ≤ os.openResult)
    (hr : os.ioctlResult = 0 ∨ os.ioctlResult = 1) :
    (main os).exitStatus = 1 - os.ioctlResult := by
  rcases hr with h | h <;> simp [main, cNot, h, not_lt.mpr hfd]

/-- Witness for C1: at both concrete executions, supported exits 0 and
unsupported exits 1. -/
theorem exit_negates_capability_witness :
    (main osSupported).exitStatus = 0 ∧ (main osUnsupported).exitStatus = 1 := by
  constructor
  · have h := exit_negates_capability osSupported (by decide) (Or.inr (by decide))
    simpa using h
  · have h := exit_negates_capability osUnsupported (by decide) (Or.inl (by decide))
    simpa using h

/-- C2: when the open fails (negative descriptor, positive `errno`), the
program writes a diagnostic to standard error, exits with the nonzero
status `-errno`, and never issues the capability-query ioctl. -/
theorem open_failure_fatal (os : OS) (hfd : os.openResult < 0)
    (herr : 0 < os.openErrno) :
    (main os).exitStatus = -os.openErrno ∧ (main os).exitStatus ≠ 0 ∧
    (main os).trace.countP Event.isIoctlCall = 0 ∧
    stderrMsgs (main os) = ["Failed to open /dev/kvm"] := by
  refine ⟨?_, ?_, ?_, ?_⟩ <;>
    simp [main, hfd, stderrMsgs, List.countP, List.countP.go, Event.isIoctlCall]
  omega

/-- Witness for C2: the open-failure execution with `errno = 13` exits
with status `-13` and issues no ioctl. -/
theorem open_failure_fatal_witness :
    (main osOpenFail).exitStatus = -13 ∧
    (main osOpenFail).trace.countP Event.isIoctlCall = 0 := by
  have h := open_failure_fatal osOpenFail (by decide) (by decide)
  exact ⟨by rw [h.1]; decide, h.2.2.1⟩

/-- C3: when the open succeeds but the query ioctl returns a negative
result, the program writes a diagnostic to standard error, still closes
the descriptor, and exits with status 1 rather than an OS error code. -/
theorem query_failure_nonfatal (os : OS) (hfd : 0 ≤ os.openResult)
    (hioctl : os.ioctlResult < 0) :
    (main os).exitStatus = 1 ∧
    stderrMsgs (main os) = ["Error checking /dev/kvm for 32-bit EL1 support"] ∧
    Event.closeCall os.openResult os.closeResult ∈ (main os).trace := by
  refine ⟨?_, ?_, ?_⟩ <;>
    simp [main, cNot, hioctl, not_lt.mpr hfd, stderrMsgs]

/-- Witness for C3: the query-failure execution exits 1, reports the
failure, and closes descriptor 3. -/
theorem query_failure_nonfatal_witness :
    (main osQueryFail).exitStatus = 1 ∧
    Event.closeCall 3 0 ∈ (main osQueryFail).trace := by
  have h := query_failure_nonfatal osQueryFail (by decide) (by decide)
  exact ⟨h.1, h.2.2⟩

/-- C4: on every path where the open succeeded the descriptor is closed
exactly once, as the last event (hence after the ioctl, whatever its
outcome); on the open-failure path no close happens. -/
theorem close_exactly_once (os : OS) :
    (0 ≤ os.openResult →
      (main os).trace.countP Event.isCloseCall = 1 ∧
      (main os).trace.getLast? =
        some (Event.closeCall os.openResult os.closeResult)) ∧
    (os.openResult < 0 → (main os).trace.countP Event.isCloseCall = 0) := by
  constructor
  · intro hfd
    by_cases hio : os.ioctlResult < 0 <;>
      simp [main, hio, not_lt.mpr hfd, List.countP, List.countP.go,
        Event.isCloseCall, List.getLast?]
  · intro hfd
    simp [main, hfd, List.countP, List.countP.go, Event.isCloseCall]

/-- Witness for C4: a successful open closes exactly once; a failed open
never closes. -/
theorem close_exactly_once_witness :
    (main osSupported).trace.countP Event.isCloseCall = 1 ∧
    (main osOpenFail).trace.countP Event.isCloseCall = 0 :=
  ⟨((close_exactly_once osSupported).1 (by decide)).1,
   (close_exactly_once osOpenFail).2 (by decide)⟩

end Aarch64El1

namespace Aarch64El1

/-- C5: for every valid execution (positive `errno` on open failure) the
exit status falls into exactly one of three cases: 0 exactly when the
query succeeded with a positive (supported) result, 1 exactly when the
open succeeded but the result was zero (unsupported) or negative (query
failed), and negative exactly when the device could not be opened. -/
theorem exit_trichotomy (os : OS) (hv : os.valid) :
    ((main os).exitStatus = 0 ↔ 0 ≤ os.openResult ∧ 0 < os.ioctlResult) ∧
    ((main os).exitStatus = 1 ↔ 0 ≤ os.openResult ∧ os.ioctlResult ≤ 0) ∧
    ((main os).exitStatus < 0 ↔ os.openResult < 0) := by
  by_cases hfd : os.openResult < 0
  · have herr := hv hfd
    refine ⟨?_, ?_, ?_⟩ <;> simp [main, hfd] <;> omega
  · push_neg at hfd
    by_cases hio : os.ioctlResult < 0
    · refine ⟨?_, ?_, ?_⟩ <;> simp [main, cNot, hio, not_lt.mpr hfd, hfd] <;> omega
    · push_neg at hio
      refine ⟨?_, ?_, ?_⟩ <;>
        simp [main, cNot, not_lt.mpr hio, not_lt.mpr hfd, hfd] <;>
        omega

/-- Witness for C5: the trichotomy instantiated at the supported
execution gives exit status 0 from its first case. -/
theorem exit_trichotomy_witness : (main osSupported).exitStatus = 0 :=
  ((exit_trichotomy osSupported (by decide)).1).mpr (by decide)

/-- C6: an execution whose query reports 0 (genuinely unsupported) and
one whose query fails (negative result) both exit with status 1; they
differ only in the diagnostic written to standard error. -/
theorem unsupported_vs_failed_same_exit (os1 os2 : OS)
    (h1 : 0 ≤ os1.openResult) (h2 : 0 ≤ os2.openResult)
    (hu : os1.ioctlResult = 0) (hf : os2.ioctlResult < 0) :
    (main os1).exitStatus = (main os2).exitStatus ∧
    (main os1).exitStatus = 1 ∧
    stderrMsgs (main os1) = [] ∧
    stderrMsgs (main os2) = ["Error checking /dev/kvm for 32-bit EL1 support"] := by
  refine ⟨?_, ?_, ?_, ?_⟩ <;>
    simp [main, cNot, hu, hf, not_lt.mpr h1, not_lt.mpr h2, stderrMsgs]

/-- Witness for C6: the concrete unsupported and query-failure executions
both exit 1. -/
theorem unsupported_vs_failed_same_exit_witness :
    (main osUnsupported).exitStatus = (main osQueryFail).exitStatus :=
  (unsupported_vs_failed_same_exit osUnsupported osQueryFail
    (by decide) (by decide) (by decide) (by decide)).1

/-- C7: diagnostics on standard error appear exactly on the two failure
paths (open failed, or open succeeded and the query returned a negative
result), and no execution ever writes to standard output. -/
theorem diagnostics_only_on_failure (os : OS) :
    (stderrMsgs (main os) ≠ [] ↔
      os.openResult < 0 ∨ (0 ≤ os.openResult ∧ os.ioctlResult < 0)) ∧
    (main os).trace.countP Event.isStdoutWrite = 0 := by
  by_cases hfd : os.openResult < 0
  · constructor
    · simp [main, hfd, stderrMsgs]
    · simp [main, hfd, List.countP, List.countP.go, Event.isStdoutWrite]
  · push_neg at hfd
    by_cases hio : os.ioctlResult < 0 <;> constructor
    · simp [main, hio, not_lt.mpr hfd, hfd, stderrMsgs]
    · simp [main, hio, not_lt.mpr hfd, List.countP, List.countP.go,
        Event.isStdoutWrite]
    · simp [main, hio, not_lt.mpr hfd, stderrMsgs]
    · simp [main, hio, not_lt.mpr hfd, List.countP, List.countP.go,
        Event.isStdoutWrite]

/-- C8: the program consumes no command-line arguments and no environment
variables: two invocations with identical OS-call results behave
identically whatever argument vector and environment they receive. -/
theorem args_env_irrelevant (argv1 argv2 : List String)
    (env1 env2 : List (String × String)) (os : OS) :
    mainWithArgs argv1 env1 os = mainWithArgs argv2 env2 os := rfl

/-- C9: when the open succeeds and the query returns a non-negative `r`,
the exit status is 0 exactly when `r` is nonzero and 1 exactly when
`r = 0`; in particular any `r > 1` counts as supported. -/
theorem nonzero_result_counts_as_supported (os : OS) (hfd : 0 ≤ os.openResult)
    (hr : 0 ≤ os.ioctlResult) :
    ((main os).exitStatus = 0 ↔ os.ioctlResult ≠ 0) ∧
    ((main os).exitStatus = 1 ↔ os.ioctlResult = 0) := by
  have h1 : ¬os.openResult < 0 := not_lt.mpr hfd
  have h2 : ¬os.ioctlResult < 0 := not_lt.mpr hr
  constructor
  · simp [main, cNot, h1, h2]
  · simp [main, cNot, h1, h2]

/-- Witness for C9: a query result of 2, outside the documented `{0, 1}`
shape, yields exit status 0. -/
theorem nonzero_result_counts_as_supported_witness :
    (main osTwo).exitStatus = 0 :=
  ((nonzero_result_counts_as_supported osTwo (by decide) (by decide)).1).mpr
    (by decide)

/-- C10: the result of `close` is discarded: changing it alters neither
the exit status nor the diagnostics written to standard error, and no
diagnostic ever mentions a failed close. -/
theorem close_result_discarded (os : OS) (c1 c2 : Int) :
    (main { os with closeResult := c1 }).exitStatus =
      (main { os with closeResult := c2 }).exitStatus ∧
    stderrMsgs (main { os with closeResult := c1 }) =
      stderrMsgs (main { os with closeResult := c2 }) := by
  by_cases hfd : os.openResult < 0
  · constructor <;> simp [main, hfd, stderrMsgs]
  · by_cases hio : os.ioctlResult < 0 <;>
      constructor <;> simp [main, hfd, hio, stderrMsgs]

end Aarch64El1
